import Mathlib

/-!
Verification of the transaction-construction and pricing logic of the
`actions` repository (Tensor NFT buy/offer example).

Embedding conventions:
* JavaScript `number` arithmetic is modelled over `ℚ` (exact rational
  arithmetic).  Every concrete value appearing in a theorem below is small
  enough that IEEE double rounding cannot affect the stated equality or
  inequality (in particular, whether a fee term is an integer or whether a
  division truncates is insensitive to the rounding of `0.015`-like values
  away from integers).
* A TypeScript value of type `string | null` (or an omitted argument, i.e.
  `undefined`) is modelled as `Option String`; JavaScript truthiness of such
  a value is `jsTruthy` (both `null`/`undefined` and the empty string are
  falsy).
* Code that can `throw` is modelled with `Except CoreError`, using the error
  taxonomy of the specification (`InvalidAccount` for a failed
  `new PublicKey(...)` construction, `InvalidAmount` for the rejected
  not-a-number offer amount).
* The effect `await connection.getLatestBlockhash()` inside the builder is
  made explicit: the value the connection returns is passed as an extra
  argument (`fetchedBlockhash` / `connectionBlockhash`).  This argument is
  the result of the fetch performed by the builder itself; it is not an
  argument of the original TypeScript function.
* `SystemProgram.transfer` encodes `lamports` as a `u64` at instruction
  construction time: `BigInt(lamports)` throws a `RangeError` on a
  non-integer number, and the 8-byte little-endian encoding of a negative
  bigint produces a short buffer on which `Blob.encode` throws a
  `TypeError`.  Both throws are amount-validity failures and are modelled,
  like the `PublicKey` throw, by their kind in the taxonomy of the
  specification: `Except.error CoreError.InvalidAmount`.
-/

namespace Actions

/-- JavaScript truthiness of a `string | null | undefined` value:
`null`/`undefined` (here `none`) and the empty string are falsy, every other
string is truthy. -/
def jsTruthy : Option String → Bool
  | none => false
  | some s => s != ""

/-! ### Pricing engine: `src/examples/tensor/buy-offer-item/transaction-utils.ts` -/

namespace Tensor

/-- `const TENSOR_FEE_BPS = 150;` (transaction-utils.ts line 5). -/
def TENSOR_FEE_BPS : ℚ := 150

/-- `const marketPlaceFee = (price * TENSOR_FEE_BPS) / 10000;`
(transaction-utils.ts line 50, hoisted from the body of `getTotalPrice`). -/
def marketPlaceFee (price : ℚ) : ℚ := (price * TENSOR_FEE_BPS) / 10000

/-- `const royalty = tokenStandard ? (price * royaltyBps) / 10000 : 0;`
(transaction-utils.ts line 51, hoisted from the body of `getTotalPrice`). -/
def royalty (price royaltyBps : ℚ) (tokenStandard : Option String) : ℚ :=
  if jsTruthy tokenStandard then (price * royaltyBps) / 10000 else 0

/-- `getTotalPrice` (transaction-utils.ts lines 49-54):
`return price + royalty + marketPlaceFee;`. -/
def getTotalPrice (price royaltyBps : ℚ) (tokenStandard : Option String) : ℚ :=
  price + royalty price royaltyBps tokenStandard + marketPlaceFee price

/-- The call site inside `createBuyNftTransaction`
(transaction-utils.ts lines 26-29):
`getTotalPrice(parseInt(itemDetails.listing.price, 10), itemDetails.sellRoyaltyFeeBPS)`.
The third parameter `tokenStandard` is omitted, so at run time it is
`undefined`, modelled as `none`. -/
def buyCallTotalPrice (listingPrice sellRoyaltyFeeBPS : ℚ) : ℚ :=
  getTotalPrice listingPrice sellRoyaltyFeeBPS none

end Tensor

/-- Claim C4: with a falsy `tokenStandard` (the reading of
`royaltiesApplicable = false`) the royalty term of `getTotalPrice` is `0`,
and `getTotalPrice price 0 falsy = price + price * 150 / 10000`; with a
truthy `tokenStandard` the royalty term is `price * royaltyRateBps / 10000`
(exact division, exactly as the code computes it). -/
theorem getTotalPrice_royalty_conditional (price royaltyBps : ℚ) (ts : Option String) :
    (jsTruthy ts = false →
      Tensor.royalty price royaltyBps ts = 0 ∧
      Tensor.getTotalPrice price 0 ts = price + price * 150 / 10000) ∧
    (jsTruthy ts = true →
      Tensor.royalty price royaltyBps ts = price * royaltyBps / 10000) := by
  constructor
  · intro h
    constructor
    · simp [Tensor.royalty, h]
    · simp [Tensor.getTotalPrice, Tensor.royalty, Tensor.marketPlaceFee,
        Tensor.TENSOR_FEE_BPS, h]
  · intro h
    simp [Tensor.royalty, h]

/-- Witness for C4: concrete evaluation at `price = 2`, `royaltyBps = 9`,
`tokenStandard = none` (falsy). -/
theorem getTotalPrice_royalty_conditional_witness :
    Tensor.royalty 2 9 none = 0 ∧
    Tensor.getTotalPrice 2 0 none = 2 + 2 * 150 / 10000 :=
  (getTotalPrice_royalty_conditional 2 9 none).1 rfl

/-- Claim C5: `createBuyNftTransaction` calls `getTotalPrice` with only two
arguments, so `tokenStandard` is `undefined` (falsy) and the royalty term is
`0` for every listing; the total is always
`price + price * 150 / 10000`, independent of `sellRoyaltyFeeBPS`. -/
theorem buyCallTotalPrice_ignores_royalty (listingPrice sellRoyaltyFeeBPS : ℚ) :
    Tensor.royalty listingPrice sellRoyaltyFeeBPS none = 0 ∧
    Tensor.buyCallTotalPrice listingPrice sellRoyaltyFeeBPS
      = listingPrice + listingPrice * 150 / 10000 := by
  constructor
  · simp [Tensor.royalty, jsTruthy]
  · simp [Tensor.buyCallTotalPrice, Tensor.getTotalPrice, Tensor.royalty,
      Tensor.marketPlaceFee, Tensor.TENSOR_FEE_BPS, jsTruthy]

/-! ### Public keys (library model of `new PublicKey(...)` from web3.js)

`new PublicKey(s)` base58-decodes the string and throws unless the decoded
byte array has length exactly 32.  The decoded length of a base58 string is
the number of leading `1` characters (each encodes a leading zero byte) plus
the big-endian byte length of the natural number encoded by the remaining
digits.  The byte length of `n > 0` is the unique `k` with
`256 ^ (k - 1) ≤ n < 256 ^ k`, which is how `isValidPublicKey` states it. -/

/-- The base58 alphabet used by the address encoding (no `0`, `O`, `I`, `l`). -/
def BASE58_ALPHABET : List Char :=
  "123456789ABCDEFGHJKLMNPQRSTUVWXYZabcdefghijkmnopqrstuvwxyz".toList

/-- Index of a character in the base58 alphabet, `none` if it is not a
base58 digit. -/
def base58Index (c : Char) : Option ℕ :=
  BASE58_ALPHABET.findIdx? (fun x => x == c)

/-- Big-endian value of a list of base58 digits; `none` if some character is
not a base58 digit. -/
def base58DecodeNat (cs : List Char) : Option ℕ :=
  cs.foldl
    (fun acc c => acc.bind (fun a => (base58Index c).map (fun d => a * 58 + d)))
    (some 0)

/-- Whether a string is a well-formed account identifier: it base58-decodes
to exactly 32 bytes.  This is the check performed by the `PublicKey`
constructor, which throws on any other input. -/
def isValidPublicKey (s : String) : Bool :=
  let cs := s.toList
  let z := (cs.takeWhile (fun c => c == '1')).length
  let rest := cs.dropWhile (fun c => c == '1')
  match base58DecodeNat rest with
  | none => false
  | some n =>
    if rest.isEmpty then z == 32
    else decide (z ≤ 31) && decide (256 ^ (31 - z) ≤ n) && decide (n < 256 ^ (32 - z))

/-- Error taxonomy of the specification: `InvalidAccount` models the throw
of the `PublicKey` constructor on a malformed address, `InvalidAmount`
models the rejection of a not-a-number offer amount. -/
inductive CoreError
  | InvalidAccount
  | InvalidAmount
deriving DecidableEq

/-- `LAMPORTS_PER_SOL` from web3.js: `10 ^ 9` smallest units per whole unit. -/
def LAMPORTS_PER_SOL : ℚ := 1000000000

/-! ### Transaction builder: `src/unnamed/part_000` -/

namespace Builder

/-- `SystemProgram.transfer({ fromPubkey, toPubkey, lamports })`: the single
kind of instruction the builder emits. -/
structure TransactionInstruction where
  fromPubkey : String
  toPubkey : String
  lamports : ℚ
deriving DecidableEq

/-- The compiled message of the `VersionedTransaction` the builder returns:
payer, the referenced blockhash and the ordered instruction list. -/
structure TransactionEnvelope where
  payerKey : String
  recentBlockhash : String
  instructions : List TransactionInstruction
deriving DecidableEq

/-- `prepareTransaction` (part_000 lines 7-22).  The original function takes
only `instructions` and `payer`; the blockhash it places in the message is
the one it fetches itself via `await connection.getLatestBlockhash()`.  That
fetched value is made an explicit argument `connectionBlockhash` here. -/
def prepareTransaction (instructions : List TransactionInstruction)
    (payer : String) (connectionBlockhash : String) : TransactionEnvelope :=
  { payerKey := payer
    recentBlockhash := connectionBlockhash
    instructions := instructions }

/-- `SystemProgram.transfer({ fromPubkey, toPubkey, lamports })` from
web3.js: the instruction data is built eagerly by encoding `lamports` as a
`u64`.  `BigInt(lamports)` throws a `RangeError` when `lamports` is not an
integer, and encoding a negative bigint into the 8-byte field throws a
`TypeError`; a non-negative integer is embedded as-is.  The throw is
modelled as `CoreError.InvalidAmount` (the amount-validity kind of the
error taxonomy, the same convention as `InvalidAccount` for the `PublicKey`
constructor throw). -/
def SystemProgram.transfer (fromPubkey toPubkey : String) (lamports : ℚ) :
    Except CoreError TransactionInstruction :=
  if lamports.den = 1 ∧ 0 ≤ lamports then
    Except.ok { fromPubkey := fromPubkey, toPubkey := toPubkey, lamports := lamports }
  else Except.error CoreError.InvalidAmount

/-- `createBuyNftTransaction` (part_000 lines 25-42): validates `buyer` then
`mint` as public keys, builds one transfer instruction of
`price * LAMPORTS_PER_SOL` lamports from buyer to mint, and hands it to
`prepareTransaction`. -/
def createBuyNftTransaction (mint buyer : String) (price : ℚ)
    (connectionBlockhash : String) : Except CoreError TransactionEnvelope :=
  if isValidPublicKey buyer = true then
    if isValidPublicKey mint = true then
      match SystemProgram.transfer buyer mint (price * LAMPORTS_PER_SOL) with
      | Except.error e => Except.error e
      | Except.ok instr =>
          Except.ok (prepareTransaction [instr] buyer connectionBlockhash)
    else Except.error CoreError.InvalidAccount
  else Except.error CoreError.InvalidAccount

/-- `createBidNftTransaction` (part_000 lines 45-62): validates `bidder` then
`mint` as public keys, builds one transfer instruction of exactly `amount`
lamports from bidder to mint, and hands it to `prepareTransaction`.  The
function itself applies no check to `amount`; the only guard it can fail is
the `u64` encoding inside `SystemProgram.transfer`. -/
def createBidNftTransaction (mint bidder : String) (amount : ℚ)
    (connectionBlockhash : String) : Except CoreError TransactionEnvelope :=
  if isValidPublicKey bidder = true then
    if isValidPublicKey mint = true then
      match SystemProgram.transfer bidder mint amount with
      | Except.error e => Except.error e
      | Except.ok instr =>
          Except.ok (prepareTransaction [instr] bidder connectionBlockhash)
    else Except.error CoreError.InvalidAccount
  else Except.error CoreError.InvalidAccount

end Builder

/-! ### Offer-amount handling: `src/examples/tensor/buy-offer-item/route.ts`
(the `post /item/{itemId}/offer/{offerAmount}` handler, lines 430-468) -/

/-- The amount pipeline of the offer handler.  The handler rejects the
request with status 400 (`Offer amount is not a valid number`) exactly when
`parseFloat(offerAmountParam)` is `NaN`; a successfully parsed number is
modelled as `some q` and a `NaN` parse as `none`.  It then computes
`priceInLamports = offerAmount * LAMPORTS_PER_SOL`.  The subsequent
`isNaN(priceInLamports)` guard can never fire for a finite parsed number,
because a finite number times `10 ^ 9` is never `NaN`; the model therefore
returns the product directly.  No sign check of any kind is performed. -/
def computeBidAmount (parsedOfferAmount : Option ℚ) : Except CoreError ℚ :=
  match parsedOfferAmount with
  | none => Except.error CoreError.InvalidAmount
  | some offerAmount => Except.ok (offerAmount * LAMPORTS_PER_SOL)

/-- A well-formed account identifier used as a concrete value in witnesses:
32 leading `1` digits base58-decode to 32 zero bytes. -/
def ones32 : String := "11111111111111111111111111111111"

end Actions

deriving instance DecidableEq for Except

namespace Actions

/-- Counterexample for claim C1: the code divides with the exact `/` of
JavaScript numbers and never truncates.  At `price = 1` the marketplace fee
computed by the code is `1 * 150 / 10000 = 3/200`, whereas the integer
truncation of `1 * 150 / 10000` toward zero is `0`. -/
theorem marketPlaceFee_not_truncated_cex :
    Tensor.marketPlaceFee 1 = 3 / 200 ∧
    Tensor.marketPlaceFee 1 ≠ ((1 * 150 / 10000 : ℕ) : ℚ) := by
  constructor
  · norm_num [Tensor.marketPlaceFee, Tensor.TENSOR_FEE_BPS]
  · norm_num [Tensor.marketPlaceFee, Tensor.TENSOR_FEE_BPS]

/-- Claim C1 as amended: each fee term of `getTotalPrice` is computed by
exact (non-truncating) division: for every non-negative integer `price` and
`royaltyRateBps`, the marketplace fee is the exact rational
`price * 150 / 10000` and the royalty term (when the token standard is
truthy) is the exact rational `price * royaltyRateBps / 10000`. -/
theorem getTotalPrice_exact_division (price royaltyRateBps : ℕ) (s : String)
    (hs : s ≠ "") :
    Tensor.marketPlaceFee (price : ℚ) = (price : ℚ) * 150 / 10000 ∧
    Tensor.royalty (price : ℚ) (royaltyRateBps : ℚ) (some s)
      = (price : ℚ) * (royaltyRateBps : ℚ) / 10000 := by
  constructor
  · simp [Tensor.marketPlaceFee, Tensor.TENSOR_FEE_BPS]
  · simp [Tensor.royalty, jsTruthy, hs]

/-- Witness for the amended C1 at `price = 7`, `royaltyRateBps = 250`,
token standard `"pNFT"`. -/
theorem getTotalPrice_exact_division_witness :
    Tensor.marketPlaceFee (7 : ℚ) = (7 : ℚ) * 150 / 10000 ∧
    Tensor.royalty (7 : ℚ) (250 : ℚ) (some "pNFT") = (7 : ℚ) * (250 : ℚ) / 10000 := by
  have h := getTotalPrice_exact_division 7 250 "pNFT" (by decide)
  simpa using h

/-- Counterexample for claim C2: at `price = 1` the marketplace fee component
is `3/200`, which is not an integer, so the components of the pricing result
are not all non-negative integers. -/
theorem getTotalPrice_components_cex :
    Tensor.marketPlaceFee 1 = 3 / 200 ∧
    ¬ ∃ n : ℤ, Tensor.marketPlaceFee 1 = (n : ℚ) := by
  have h1 : Tensor.marketPlaceFee 1 = 3 / 200 := by
    norm_num [Tensor.marketPlaceFee, Tensor.TENSOR_FEE_BPS]
  refine ⟨h1, ?_⟩
  rintro ⟨n, hn⟩
  rw [h1] at hn
  have h2 : (3 : ℚ) = (n : ℚ) * 200 := by
    field_simp at hn
    linarith
  have h3 : (3 : ℤ) = n * 200 := by exact_mod_cast h2
  omega

/-- Claim C2 as amended: for all non-negative rational inputs the total
returned by `getTotalPrice` equals `basePrice + royaltyFee + marketplaceFee`
exactly, and the three components are non-negative; they are non-negative
rationals, not necessarily integers. -/
theorem getTotalPrice_sum_and_nonneg (price royaltyBps : ℚ) (ts : Option String)
    (hp : 0 ≤ price) (hb : 0 ≤ royaltyBps) :
    Tensor.getTotalPrice price royaltyBps ts
      = price + Tensor.royalty price royaltyBps ts + Tensor.marketPlaceFee price ∧
    0 ≤ price ∧
    0 ≤ Tensor.marketPlaceFee price ∧
    0 ≤ Tensor.royalty price royaltyBps ts := by
  refine ⟨rfl, hp, ?_, ?_⟩
  · simp only [Tensor.marketPlaceFee, Tensor.TENSOR_FEE_BPS]
    positivity
  · by_cases h : jsTruthy ts = true
    · simp only [Tensor.royalty, h, if_true]
      positivity
    · simp [Tensor.royalty, h]

/-- Witness for the amended C2 at `price = 3`, `royaltyBps = 500`,
token standard `"cNFT"`. -/
theorem getTotalPrice_sum_and_nonneg_witness :
    Tensor.getTotalPrice 3 500 (some "cNFT")
      = 3 + Tensor.royalty 3 500 (some "cNFT") + Tensor.marketPlaceFee 3 ∧
    (0 : ℚ) ≤ 3 ∧
    0 ≤ Tensor.marketPlaceFee 3 ∧
    0 ≤ Tensor.royalty 3 500 (some "cNFT") :=
  getTotalPrice_sum_and_nonneg 3 500 (some "cNFT") (by norm_num) (by norm_num)

/-- Claim C3: with well-formed payer and recipient keys, a positive integer
amount and a blockhash token, the bid builder (the realization of
`buildTransferTransaction`: its `amount` is already in smallest units)
returns an envelope with exactly one instruction whose transfer amount is
the input amount; the buy builder likewise returns an envelope with exactly
one instruction, whose amount is its price input converted to smallest
units (`price * LAMPORTS_PER_SOL`). -/
theorem createBidNftTransaction_single_instruction
    (mint bidder fetchedBlockhash : String) (n : ℕ) (_hn : 0 < n)
    (hb : isValidPublicKey bidder = true) (hm : isValidPublicKey mint = true) :
    (∃ env : Builder.TransactionEnvelope,
      Builder.createBidNftTransaction mint bidder (n : ℚ) fetchedBlockhash
        = Except.ok env ∧
      env.instructions.length = 1 ∧
      ∀ instr ∈ env.instructions, instr.lamports = (n : ℚ)) ∧
    (∃ env : Builder.TransactionEnvelope,
      Builder.createBuyNftTransaction mint bidder (n : ℚ) fetchedBlockhash
        = Except.ok env ∧
      env.instructions.length = 1 ∧
      ∀ instr ∈ env.instructions,
        instr.lamports = (n : ℚ) * LAMPORTS_PER_SOL) := by
  constructor
  · refine ⟨Builder.prepareTransaction
      [⟨bidder, mint, (n : ℚ)⟩] bidder fetchedBlockhash, ?_, rfl, ?_⟩
    · have henc : Builder.SystemProgram.transfer bidder mint (n : ℚ)
          = Except.ok ⟨bidder, mint, (n : ℚ)⟩ := by
        simp [Builder.SystemProgram.transfer, Rat.den_natCast]
      simp [Builder.createBidNftTransaction, hb, hm, henc]
    · intro instr hi
      simp [Builder.prepareTransaction] at hi
      rw [hi]
  · refine ⟨Builder.prepareTransaction
      [⟨bidder, mint, (n : ℚ) * LAMPORTS_PER_SOL⟩] bidder fetchedBlockhash, ?_, rfl, ?_⟩
    · have hcast : (n : ℚ) * LAMPORTS_PER_SOL = ((n * 1000000000 : ℕ) : ℚ) := by
        simp [LAMPORTS_PER_SOL]
      have henc : Builder.SystemProgram.transfer bidder mint ((n : ℚ) * LAMPORTS_PER_SOL)
          = Except.ok ⟨bidder, mint, (n : ℚ) * LAMPORTS_PER_SOL⟩ := by
        rw [Builder.SystemProgram.transfer, if_pos]
        rw [hcast]
        exact ⟨Rat.den_natCast _, Nat.cast_nonneg _⟩
      simp [Builder.createBuyNftTransaction, hb, hm, henc]
    · intro instr hi
      simp [Builder.prepareTransaction] at hi
      rw [hi]

/-- Witness for C3: both builders evaluated at two well-formed 32-byte
keys, amount `5` and the blockhash token `"blockhash-token"`. -/
theorem createBidNftTransaction_single_instruction_witness :
    (∃ env : Builder.TransactionEnvelope,
      Builder.createBidNftTransaction ones32 ones32 ((5 : ℕ) : ℚ) "blockhash-token"
        = Except.ok env ∧
      env.instructions.length = 1 ∧
      ∀ instr ∈ env.instructions, instr.lamports = ((5 : ℕ) : ℚ)) ∧
    (∃ env : Builder.TransactionEnvelope,
      Builder.createBuyNftTransaction ones32 ones32 ((5 : ℕ) : ℚ) "blockhash-token"
        = Except.ok env ∧
      env.instructions.length = 1 ∧
      ∀ instr ∈ env.instructions,
        instr.lamports = ((5 : ℕ) : ℚ) * LAMPORTS_PER_SOL) :=
  createBidNftTransaction_single_instruction ones32 ones32 "blockhash-token" 5
    (by decide) (by decide) (by decide)

/-- Counterexample for claim C6: the builder fetches the blockhash itself.
Two calls of `prepareTransaction` that agree on every caller-supplied
argument (the instruction list and the payer) but run under different
connection states produce envelopes with different `recentBlockhash`
values: the blockhash in the envelope is the one the builder fetched via
`connection.getLatestBlockhash()`, not a value supplied by the caller (the
original function has no blockhash parameter at all). -/
theorem prepareTransaction_fetches_blockhash_cex :
    (Builder.prepareTransaction [] "payer" "FETCHED-A").recentBlockhash = "FETCHED-A" ∧
    (Builder.prepareTransaction [] "payer" "FETCHED-B").recentBlockhash = "FETCHED-B" ∧
    (Builder.prepareTransaction [] "payer" "FETCHED-A").recentBlockhash
      ≠ (Builder.prepareTransaction [] "payer" "FETCHED-B").recentBlockhash :=
  ⟨rfl, rfl, by decide⟩

/-- Claim C6 as amended: `prepareTransaction` has no `recentBlockhash`
parameter; it fetches the latest blockhash from the module-level connection
itself, and the returned envelope carries that fetched value unchanged
(together with the caller-supplied payer and instruction list). -/
theorem prepareTransaction_blockhash_as_fetched
    (instructions : List Builder.TransactionInstruction)
    (payer connectionBlockhash : String) :
    (Builder.prepareTransaction instructions payer connectionBlockhash).recentBlockhash
      = connectionBlockhash ∧
    (Builder.prepareTransaction instructions payer connectionBlockhash).payerKey = payer ∧
    (Builder.prepareTransaction instructions payer connectionBlockhash).instructions
      = instructions :=
  ⟨rfl, rfl, rfl⟩

/-- Counterexample for claim C7: a negative offer amount is not rejected.
The offer handler only rejects `NaN`; `computeBidAmount (-1)` succeeds and
returns `-1_000_000_000` instead of failing with `InvalidAmount`. -/
theorem computeBidAmount_negative_cex :
    computeBidAmount (some (-1)) = Except.ok (-1000000000) ∧
    computeBidAmount (some (-1)) ≠ Except.error CoreError.InvalidAmount := by
  have h : computeBidAmount (some (-1)) = Except.ok (-1000000000) := by
    simp only [computeBidAmount, LAMPORTS_PER_SOL]
    norm_num
  exact ⟨h, by rw [h]; exact fun hc => Except.noConfusion hc⟩

/-- Claim C7 as amended: `computeBidAmount` converts a parsed decimal offer
to smallest units by multiplying by `10 ^ 9`, and fails with `InvalidAmount`
exactly when the input did not parse to a number (`NaN`); finite negative
inputs are converted without error.  In particular
`computeBidAmount 1.5 = 1_500_000_000`. -/
theorem computeBidAmount_conversion (q : ℚ) :
    computeBidAmount (some q) = Except.ok (q * 1000000000) ∧
    computeBidAmount none = Except.error CoreError.InvalidAmount ∧
    computeBidAmount (some (3 / 2)) = Except.ok 1500000000 := by
  refine ⟨rfl, rfl, ?_⟩
  simp only [computeBidAmount, LAMPORTS_PER_SOL]
  norm_num

/-- Claim C8: when `amount` is not a non-negative integer (negative,
fractional, or not a number at all), `createBidNftTransaction` fails and no
envelope, complete or partial, is constructed: with well-formed keys the
failure is the amount-validity throw of the `u64` lamports encoding inside
`SystemProgram.transfer`, classified `InvalidAmount`; with a malformed key
the `PublicKey` constructor throws first (`InvalidAccount`, claim C9), so
in every case the result is an error and never an envelope. -/
theorem createBidNftTransaction_invalid_amount
    (mint bidder fetchedBlockhash : String) (amount : ℚ)
    (ha : ¬ (amount.den = 1 ∧ 0 ≤ amount)) :
    (∀ env : Builder.TransactionEnvelope,
      Builder.createBidNftTransaction mint bidder amount fetchedBlockhash
        ≠ Except.ok env) ∧
    (isValidPublicKey bidder = true → isValidPublicKey mint = true →
      Builder.createBidNftTransaction mint bidder amount fetchedBlockhash
        = Except.error CoreError.InvalidAmount) := by
  have henc : Builder.SystemProgram.transfer bidder mint amount
      = Except.error CoreError.InvalidAmount := by
    rw [Builder.SystemProgram.transfer, if_neg ha]
  constructor
  · intro env hok
    by_cases hb : isValidPublicKey bidder = true
    · by_cases hm : isValidPublicKey mint = true
      · rw [Builder.createBidNftTransaction, if_pos hb, if_pos hm, henc] at hok
        exact Except.noConfusion hok
      · rw [Builder.createBidNftTransaction, if_pos hb, if_neg hm] at hok
        exact Except.noConfusion hok
    · rw [Builder.createBidNftTransaction, if_neg hb] at hok
      exact Except.noConfusion hok
  · intro hb hm
    rw [Builder.createBidNftTransaction, if_pos hb, if_pos hm, henc]

/-- Witness for C8: at the negative amount `-1` with two well-formed keys
the bid builder fails with `InvalidAmount`. -/
theorem createBidNftTransaction_invalid_amount_witness :
    Builder.createBidNftTransaction ones32 ones32 (-1) "blockhash-token"
      = Except.error CoreError.InvalidAmount :=
  (createBidNftTransaction_invalid_amount ones32 ones32 "blockhash-token" (-1)
      (by decide)).2 (by decide) (by decide)

/-- Claim C9: when the payer or the recipient string is not a well-formed
account identifier, both builders fail with `InvalidAccount` (the
`PublicKey` constructor throws before any instruction is constructed) and
no envelope, complete or partial, is returned. -/
theorem buildTransfer_malformed_account (mint payerAddr : String) (amount : ℚ)
    (fetchedBlockhash : String)
    (h : isValidPublicKey payerAddr = false ∨ isValidPublicKey mint = false) :
    Builder.createBidNftTransaction mint payerAddr amount fetchedBlockhash
      = Except.error CoreError.InvalidAccount ∧
    Builder.createBuyNftTransaction mint payerAddr amount fetchedBlockhash
      = Except.error CoreError.InvalidAccount := by
  rcases h with h | h
  · simp [Builder.createBidNftTransaction, Builder.createBuyNftTransaction, h]
  · by_cases hb : isValidPublicKey payerAddr = true
    · simp [Builder.createBidNftTransaction, Builder.createBuyNftTransaction, hb, h]
    · simp [Builder.createBidNftTransaction, Builder.createBuyNftTransaction, hb]

/-- Witness for C9: `"bad key!"` contains characters outside the base58
alphabet, so both builders reject it. -/
theorem buildTransfer_malformed_account_witness :
    Builder.createBidNftTransaction ones32 "bad key!" 5 "blockhash-token"
      = Except.error CoreError.InvalidAccount ∧
    Builder.createBuyNftTransaction ones32 "bad key!" 5 "blockhash-token"
      = Except.error CoreError.InvalidAccount :=
  buildTransfer_malformed_account ones32 "bad key!" 5 "blockhash-token"
    (Or.inl (by decide))

/-- Claim C10: the pricing function and the transaction builder are
deterministic: two calls with identical inputs (for the builder, including
the same fetched blockhash) return identical results. -/
theorem core_deterministic (p b : ℚ) (ts : Option String)
    (p2 b2 : ℚ) (ts2 : Option String)
    (mint bidder : String) (a : ℚ) (fbh : String)
    (mint2 bidder2 : String) (a2 : ℚ) (fbh2 : String)
    (hp : p = p2) (hrb : b = b2) (hts : ts = ts2) (hm : mint = mint2)
    (hbd : bidder = bidder2) (ha : a = a2) (hf : fbh = fbh2) :
    Tensor.getTotalPrice p b ts = Tensor.getTotalPrice p2 b2 ts2 ∧
    Builder.createBidNftTransaction mint bidder a fbh
      = Builder.createBidNftTransaction mint2 bidder2 a2 fbh2 := by
  subst hp hrb hts hm hbd ha hf
  exact ⟨rfl, rfl⟩

/-- Witness for C10: two textually identical calls at concrete inputs. -/
theorem core_deterministic_witness :
    Tensor.getTotalPrice 7 250 none = Tensor.getTotalPrice 7 250 none ∧
    Builder.createBidNftTransaction ones32 ones32 3 "blockhash-token"
      = Builder.createBidNftTransaction ones32 ones32 3 "blockhash-token" :=
  core_deterministic 7 250 none 7 250 none ones32 ones32 3 "blockhash-token"
    ones32 ones32 3 "blockhash-token" rfl rfl rfl rfl rfl rfl rfl

end Actions
